import Mathlib

/-!
Shallow embedding of the session lifecycle engine of `server.js` (the
Goon VoiceFlow conversational orchestrator): the input validator, the
sliding-window rate limiter, session construction and persistence, the
command dispatcher, the LLM provider-fallback orchestration and the
message router `handleInput`.

JavaScript built-ins used by that code (`toLowerCase`, `includes`,
`slice`, `parseFloat`, `parseInt`, `split`, `trim`) are modelled by
small executable Lean functions.  External collaborators — the HTTP
generation providers and the Redis backing store — are modelled by an
explicit completion oracle and by an effect trace: every call to
`saveSession`, `deleteSession` scheduling, or `saveUserDefaults` is
recorded as an `Effect` in the order the source performs it.
JavaScript numbers are modelled as `ℚ` (temperature) or `Int`
(timestamps, sizes); `NaN` results of parsing are modelled as `none`.
-/

namespace Goon

/-- Models the JavaScript built-in `String.prototype.toLowerCase`
(ASCII letters, which is all the consent tokens and command verbs use). -/
def jsToLower (s : String) : String := String.mk (s.data.map Char.toLower)

/-- Does `pat` occur as a contiguous block at the head of `l`? -/
def headMatches : List Char → List Char → Bool
  | [], _ => true
  | _ :: _, [] => false
  | p :: ps, c :: cs => p == c && headMatches ps cs

/-- Does `pat` occur as a contiguous block anywhere in `l`? -/
def containsSub (pat : List Char) : List Char → Bool
  | [] => headMatches pat []
  | c :: cs => headMatches pat (c :: cs) || containsSub pat cs

/-- Models the JavaScript built-in `String.prototype.includes`:
substring containment. -/
def jsIncludes (hay pat : String) : Bool := containsSub pat.data hay.data

/-- Models the JavaScript built-in `String.prototype.startsWith`. -/
def jsStartsWith (s pat : String) : Bool := headMatches pat.data s.data

/-- Accumulator loop for `jsSplitSpace`. -/
def splitSpaceAux : List Char → List Char → List String
  | [], acc => [String.mk acc.reverse]
  | c :: cs, acc =>
      if c = ' ' then String.mk acc.reverse :: splitSpaceAux cs []
      else splitSpaceAux cs (c :: acc)

/-- Models the JavaScript built-in `String.prototype.split(' ')`
(single-space separator, keeps empty fragments). -/
def jsSplitSpace (s : String) : List String := splitSpaceAux s.data []

/-- Models the JavaScript built-in `Array.prototype.join(' ')`. -/
def joinSpace : List String → String
  | [] => ""
  | [x] => x
  | x :: y :: xs => x ++ " " ++ joinSpace (y :: xs)

/-- Models the JavaScript built-in `String.prototype.trim`. -/
def jsTrim (s : String) : String :=
  String.mk (((s.data.dropWhile Char.isWhitespace).reverse.dropWhile Char.isWhitespace).reverse)

/-- Models the JavaScript built-in `Array.prototype.slice` with one
integer argument: a negative `start` counts from the end of the array. -/
def jsSlice {α : Type} (l : List α) (start : Int) : List α :=
  if start < 0 then l.drop ((l.length : Int) + start).toNat else l.drop start.toNat

/-- Value of a block of decimal digit characters. -/
def digitsVal (l : List Char) : Nat := l.foldl (fun a c => a * 10 + (c.toNat - 48)) 0

/-- Models the JavaScript built-in `parseFloat` on plain decimal forms
(optional sign, integer digits, optional fractional digits, trailing
garbage ignored); `none` stands for `NaN`.  Exponent notation is not
modelled: `"1e3"` parses to 1 here where JavaScript gives 1000. -/
def jsParseFloat (s : String) : Option ℚ :=
  let l := s.data.dropWhile Char.isWhitespace
  let sign : ℚ := if l.headD ' ' = '-' then -1 else 1
  let l1 := if l.headD ' ' = '-' ∨ l.headD ' ' = '+' then l.drop 1 else l
  let intPart := l1.takeWhile Char.isDigit
  let rest := l1.dropWhile Char.isDigit
  let fracPart := if rest.headD ' ' = '.' then (rest.drop 1).takeWhile Char.isDigit else []
  if intPart = [] ∧ fracPart = [] then none
  else some (sign * ((digitsVal intPart : ℚ) + (digitsVal fracPart : ℚ) / (10 : ℚ) ^ fracPart.length))

/-- Models the JavaScript built-in `parseInt(x, 10)`; `none` stands for `NaN`. -/
def jsParseInt (s : String) : Option Int :=
  let l := s.data.dropWhile Char.isWhitespace
  let sign : Int := if l.headD ' ' = '-' then -1 else 1
  let l1 := if l.headD ' ' = '-' ∨ l.headD ' ' = '+' then l.drop 1 else l
  let ds := l1.takeWhile Char.isDigit
  if ds = [] then none else some (sign * (digitsVal ds : Int))

/-- Result record of `validateInput` in `server.js`: `{valid, error}`. -/
structure VResult where
  valid : Bool
  error : String
deriving DecidableEq, Repr

/-- `validateInput(input, 'string', {min, max, required})` from
`server.js` (the typed validator, string kind). -/
def validateString (required : Bool) (lo hi : Option Nat) (input : String) : VResult :=
  if required ∧ input = "" then ⟨false, "Input is required"⟩
  else if ¬required ∧ input = "" then ⟨true, ""⟩
  else
    match lo, hi with
    | some a, some b =>
        if input.length < a then ⟨false, s!"Input must be at least {a} characters"⟩
        else if b < input.length then ⟨false, s!"Input must be at most {b} characters"⟩
        else ⟨true, ""⟩
    | some a, none =>
        if input.length < a then ⟨false, s!"Input must be at least {a} characters"⟩
        else ⟨true, ""⟩
    | none, some b =>
        if b < input.length then ⟨false, s!"Input must be at most {b} characters"⟩
        else ⟨true, ""⟩
    | none, none => ⟨true, ""⟩

/-- `validateInput(input, 'number', {min, max})` from `server.js`; the
input is the result of `parseFloat`/`parseInt` at every call site, with
`none` standing for `NaN` (which fails the `isNaN` check). -/
def validateNumber (lo hi : Option ℚ) (input : Option ℚ) : VResult :=
  match input with
  | none => ⟨false, "Input must be a number"⟩
  | some num =>
    match lo, hi with
    | some a, some b =>
        if num < a then ⟨false, s!"Input must be at least {a}"⟩
        else if b < num then ⟨false, s!"Input must be at most {b}"⟩
        else ⟨true, ""⟩
    | some a, none =>
        if num < a then ⟨false, s!"Input must be at least {a}"⟩ else ⟨true, ""⟩
    | none, some b =>
        if b < num then ⟨false, s!"Input must be at most {b}"⟩ else ⟨true, ""⟩
    | none, none => ⟨true, ""⟩

/-- `validateInput(input, 'enum', {allowed})` from `server.js`
(with the default `required = true`). -/
def validateEnum (allowed : List String) (input : String) : VResult :=
  if input = "" then ⟨false, "Input is required"⟩
  else if input ∈ allowed then ⟨true, ""⟩
  else ⟨false, "Input must be one of: " ++ String.intercalate ", " allowed⟩

/-- The `RateLimiter` class state: `maxRequests`, `windowMs` and the
per-key admission timestamp map (`none` models an absent `Map` key). -/
structure RateLimiter where
  maxRequests : Nat
  windowMs : Int
  requests : String → Option (List Int)

/-- `RateLimiter.isAllowed(sessionId)` at wall-clock time `now`:
prune timestamps older than the window, reject (recording nothing
beyond the pruning) when the count reaches `maxRequests`, otherwise
record `now` and accept.  Returns the decision and the updated state. -/
def RateLimiter.isAllowed (rl : RateLimiter) (now : Int) (sessionId : String) :
    Bool × RateLimiter :=
  let userRequests := (rl.requests sessionId).getD []
  let validRequests := userRequests.filter (fun t => now - t < rl.windowMs)
  if rl.maxRequests ≤ validRequests.length then
    (false, { rl with requests := fun k => if k = sessionId then some validRequests else rl.requests k })
  else
    (true, { rl with requests := fun k => if k = sessionId then some (validRequests ++ [now]) else rl.requests k })

/-- `RateLimiter.reset(sessionId)`: drop the key entirely. -/
def RateLimiter.reset (rl : RateLimiter) (sessionId : String) : RateLimiter :=
  { rl with requests := fun k => if k = sessionId then none else rl.requests k }

/-- One history entry: `{role, content}`. -/
structure Message where
  role : String
  content : String
deriving DecidableEq, Repr

/-- `session.params` from `server.js`. -/
structure Params where
  provider : String
  model : String
  temperature : ℚ
  systemPrompt : String
  memorySize : Int
  maxTokens : Int
  ttsEnabled : Bool
  voiceId : String
deriving DecidableEq, Repr

/-- A session object from `server.js` (states are the source's strings:
`"consent"`, `"telegram"`, `"webui"`, `"terminal_unhappy"`). -/
structure Session where
  id : String
  platform : String
  state : String
  history : List Message
  params : Params
  createdAt : Int
  lastActivity : Int
deriving DecidableEq, Repr

/-- One provider entry of the `LLM_PROVIDERS` configuration table
(`apiKey = none` models an unset environment credential). -/
structure ProviderConfig where
  apiKey : Option String
  model : String
deriving DecidableEq, Repr

/-- Process-wide configuration: the two provider entries of
`LLM_PROVIDERS`, the `ELEVENLABS_VOICE_ID` default and whether a Redis
client was configured. -/
structure Env where
  openrouter : ProviderConfig
  mistral : ProviderConfig
  elevenLabsVoiceId : String
  redisAvailable : Bool
deriving DecidableEq, Repr

/-- `LLM_PROVIDERS[name]` lookup. -/
def getLLMProvider (env : Env) (name : String) : Option ProviderConfig :=
  if name = "openrouter" then some env.openrouter
  else if name = "mistral" then some env.mistral
  else none

/-- The request body `callLLM` sends to a provider endpoint, together
with the provider it is addressed to. -/
structure LLMRequest where
  provider : String
  model : String
  messages : List Message
  temperature : ℚ
  maxTokens : Int
deriving DecidableEq, Repr

/-- Side effects on the stores, recorded in source order: a
`saveSession` write-through, the `setTimeout(deleteSession, 5000)`
grace-delay deletion, and a `saveUserDefaults` durable write. -/
inductive Effect where
  | save (s : Session)
  | scheduleDelete (sessionId : String)
  | saveDefaults (sessionId : String) (p : Params)
deriving DecidableEq, Repr

/-- `createSession(sessionId, platform)` from `server.js` at wall-clock
time `now` (the in-memory `sessions.set` is implicit: the caller gets
the authoritative object back). -/
def createSession (env : Env) (sessionId platform : String) (now : Int) : Session :=
  { id := sessionId
    platform := platform
    state := "consent"
    history := []
    params :=
      { provider := "openrouter"
        model := env.openrouter.model
        temperature := 7 / 10
        systemPrompt := "You are a helpful AI assistant named Goon."
        memorySize := 10
        maxTokens := 1000
        ttsEnabled := false
        voiceId := env.elevenLabsVoiceId }
    createdAt := now
    lastActivity := now }

/-- The messages array `callLLM` assembles: system prompt, capped
history, then the new user message. -/
def buildMessages (session : Session) (userMessage : String) : List Message :=
  ⟨"system", session.params.systemPrompt⟩ :: session.history ++ [⟨"user", userMessage⟩]

/-- `callLLM(session, userMessage)` from `server.js`.  The HTTP call is
modelled by `oracle`; the result pairs the returned/thrown value with
the trace of provider requests actually issued.  On a provider failure
the `catch` block's first statement (`const duration = Date.now() -
startTime`, server.js:422) reads `startTime`, a `const` scoped to the
`try` block, so it throws `ReferenceError: startTime is not defined`;
the error logging, the one-hop Mistral fallback below it
(server.js:435-455) and the rethrow of the provider error are therefore
unreachable, and the ReferenceError's message is what propagates to the
caller on every provider failure. -/
def callLLM (env : Env) (oracle : LLMRequest → Except String String)
    (session : Session) (userMessage : String) :
    Except String String × List LLMRequest :=
  match getLLMProvider env session.params.provider with
  | none => (.error ("Invalid provider: " ++ session.params.provider), [])
  | some config =>
    match config.apiKey with
    | none => (.error (session.params.provider ++ " API key not configured"), [])
    | some _ =>
      let req : LLMRequest :=
        { provider := session.params.provider
          model := session.params.model
          messages := buildMessages session userMessage
          temperature := session.params.temperature
          maxTokens := session.params.maxTokens }
      match oracle req with
      | .ok text => (.ok text, [req])
      | .error _ => (.error "startTime is not defined", [req])

/-- The multi-line `/help` reply text. -/
def helpText : String :=
  "Available commands:\n/help - Show this help message\n/reset - Clear conversation history\n/settings - Show current settings\n/provider <openrouter|mistral> - Switch LLM provider\n/model <model-name> - Set model name\n/temperature <0.0-2.0> - Set temperature\n/systemprompt <prompt> - Set system prompt\n/memory <number> - Set conversation memory size\n/maxtokens <number> - Set max tokens\n/tts <on|off> - Toggle text-to-speech\n/voiceid <id> - Set ElevenLabs voice ID\n/save - Save current settings as defaults\n/status - Show session status"

/-- The `/settings` reply (numbers and booleans rendered with `toString`
in place of JavaScript number formatting). -/
def settingsText (session : Session) : String :=
  "Current settings:\nProvider: " ++ session.params.provider ++
  "\nModel: " ++ session.params.model ++
  "\nTemperature: " ++ toString session.params.temperature ++
  "\nSystem Prompt: " ++ session.params.systemPrompt ++
  "\nMemory Size: " ++ toString session.params.memorySize ++
  "\nMax Tokens: " ++ toString session.params.maxTokens ++
  "\nTTS Enabled: " ++ toString session.params.ttsEnabled ++
  "\nVoice ID: " ++ (if session.params.voiceId = "" then "not set" else session.params.voiceId)

/-- The `/status` reply (timestamps rendered with `toString` in place
of `Date.toISOString`). -/
def statusText (session : Session) : String :=
  "Session Status:\nID: " ++ session.id ++
  "\nPlatform: " ++ session.platform ++
  "\nState: " ++ session.state ++
  "\nHistory Length: " ++ toString session.history.length ++
  "\nCreated: " ++ toString session.createdAt ++
  "\nLast Activity: " ++ toString session.lastActivity

/-- The tail of every mutating command branch in `server.js`:
`await saveSession(session); return msg` — the mutated session is the
one written by the single `saveSession` effect. -/
def saveAndReturn (msg : String) (s : Session) : String × Session × List Effect :=
  (msg, s, [Effect.save s])

/-- `handleCommand(session, input)` from `server.js`: split on spaces,
lowercase the verb, re-join and trim the argument, then dispatch.
Every mutating branch validates first, then mutates and performs the
`saveSession` write (which stamps `lastActivity := now`); the `/save`
branch writes the separate durable defaults record when Redis is
configured. -/
def handleCommand (env : Env) (now : Int) (session : Session) (input : String) :
    String × Session × List Effect :=
  let parts := jsSplitSpace input
  let command := jsToLower (parts.headD "")
  let args := jsTrim (joinSpace (parts.drop 1))
  match command with
  | "/help" => (helpText, session, [])
  | "/reset" =>
    saveAndReturn "Conversation history cleared."
      { session with history := [], lastActivity := now }
  | "/settings" => (settingsText session, session, [])
  | "/provider" =>
    if (validateEnum ["openrouter", "mistral"] args).valid then
      let newModel := if args = "openrouter" then env.openrouter.model else env.mistral.model
      saveAndReturn ("Provider switched to " ++ args ++ " with model " ++ newModel)
        { session with
          params := { session.params with provider := args, model := newModel }
          lastActivity := now }
    else ("Usage: /provider <openrouter|mistral>", session, [])
  | "/model" =>
    if args = "" then ("Usage: /model <model-name>", session, [])
    else
      saveAndReturn ("Model set to " ++ args)
        { session with params := { session.params with model := args }, lastActivity := now }
  | "/temperature" =>
    if (validateNumber (some 0) (some 2) (jsParseFloat args)).valid then
      saveAndReturn ("Temperature set to " ++ args)
        { session with
          params := { session.params with temperature := (jsParseFloat args).getD 0 }
          lastActivity := now }
    else ("Usage: /temperature <0.0-2.0>", session, [])
  | "/systemprompt" =>
    if args = "" then ("Usage: /systemprompt <prompt>", session, [])
    else
      saveAndReturn "System prompt updated."
        { session with
          params := { session.params with systemPrompt := args }
          lastActivity := now }
  | "/memory" =>
    if (validateNumber (some 1) (some 100) ((jsParseInt args).map (Int.cast : Int → ℚ))).valid then
      saveAndReturn ("Memory size set to " ++ args)
        { session with
          params := { session.params with memorySize := (jsParseInt args).getD 0 }
          lastActivity := now }
    else ("Usage: /memory <1-100>", session, [])
  | "/maxtokens" =>
    if (validateNumber (some 100) (some 4000) ((jsParseInt args).map (Int.cast : Int → ℚ))).valid then
      saveAndReturn ("Max tokens set to " ++ args)
        { session with
          params := { session.params with maxTokens := (jsParseInt args).getD 0 }
          lastActivity := now }
    else ("Usage: /maxtokens <100-4000>", session, [])
  | "/tts" =>
    if (validateEnum ["on", "off"] args).valid then
      saveAndReturn ("TTS " ++ (if args == "on" then "enabled" else "disabled"))
        { session with
          params := { session.params with ttsEnabled := args == "on" }
          lastActivity := now }
    else ("Usage: /tts <on|off>", session, [])
  | "/voiceid" =>
    if args = "" then ("Usage: /voiceid <id>", session, [])
    else
      saveAndReturn ("Voice ID set to " ++ args)
        { session with
          params := { session.params with voiceId := args }
          lastActivity := now }
  | "/save" =>
    if env.redisAvailable then
      ("Current settings saved as your defaults.", session,
        [Effect.saveDefaults session.id session.params])
    else ("Failed to save defaults: Redis not available", session, [])
  | "/status" => (statusText session, session, [])
  | _ => ("Unknown command: " ++ command ++ ". Type /help for available commands.", session, [])

/-- `MAX_MESSAGE_LENGTH` from the configuration section. -/
def MAX_MESSAGE_LENGTH : Nat := 10000

/-- The history-trimming step of `handleInput`: when the history
exceeds `memorySize * 2`, keep the `slice(-memorySize * 2)` tail. -/
def trimHistory (session : Session) : Session :=
  if (session.history.length : Int) > session.params.memorySize * 2 then
    { session with history := jsSlice session.history (-(session.params.memorySize * 2)) }
  else session

/-- `handleInput(session, input)` from `server.js`: validate length,
run the consent state machine, absorb inputs in the terminal state,
dispatch `/`-led inputs to `handleCommand`, otherwise trim history,
call the provider, and on success append both turns and persist; a
provider failure is returned as a user-facing error string. -/
def handleInput (env : Env) (oracle : LLMRequest → Except String String)
    (now : Int) (session : Session) (input : String) :
    String × Session × List Effect :=
  let validation := validateString true (some 1) (some MAX_MESSAGE_LENGTH) input
  if validation.valid = false then (validation.error, session, [])
  else if session.state = "consent" then
    if jsIncludes (jsToLower input) "yes" || jsIncludes (jsToLower input) "agree" ||
        jsIncludes (jsToLower input) "accept" then
      let s := { session with state := session.platform, lastActivity := now }
      ("Thank you! You can now start chatting. Type /help for available commands.",
       s, [Effect.save s])
    else
      let s := { session with state := "terminal_unhappy", lastActivity := now }
      ("Consent denied. Session will be terminated.",
       s, [Effect.save s, Effect.scheduleDelete session.id])
  else if session.state = "terminal_unhappy" then
    ("Session terminated. Please start a new conversation.", session, [])
  else if jsStartsWith input "/" then
    handleCommand env now session input
  else
    let session1 := trimHistory session
    match callLLM env oracle session1 input with
    | (.ok response, _) =>
      let s := { session1 with
        history := session1.history ++ [⟨"user", input⟩, ⟨"assistant", response⟩]
        lastActivity := now }
      (response, s, [Effect.save s])
    | (.error err, _) =>
      ("Error: " ++ err ++ ". Please try again or contact support.", session1, [])

/-- JSON values, the serialized form `JSON.stringify`/`JSON.parse`
exchange with the Redis durable backing. -/
inductive Json where
  | str (s : String)
  | num (q : ℚ)
  | jbool (b : Bool)
  | arr (xs : List Json)
  | obj (fields : List (String × Json))

/-- Field lookup on a JSON object. -/
def Json.getField (j : Json) (k : String) : Option Json :=
  match j with
  | .obj fields => fields.lookup k
  | _ => none

/-- Read a JSON string. -/
def Json.asStr : Json → Option String
  | .str s => some s
  | _ => none

/-- Read a JSON boolean. -/
def Json.asBool : Json → Option Bool
  | .jbool b => some b
  | _ => none

/-- Read a JSON number. -/
def Json.asRat : Json → Option ℚ
  | .num q => some q
  | _ => none

/-- Read an integral JSON number. -/
def Json.asInt : Json → Option Int
  | .num q => if q.den = 1 then some q.num else none
  | _ => none

/-- `JSON.stringify` of one history entry. -/
def Message.toJson (m : Message) : Json :=
  .obj [("role", .str m.role), ("content", .str m.content)]

/-- `JSON.parse` of one history entry. -/
def Message.ofJson (j : Json) : Option Message := do
  let role ← (← j.getField "role").asStr
  let content ← (← j.getField "content").asStr
  pure ⟨role, content⟩

/-- `JSON.parse` of a serialized history array, elementwise. -/
def decodeMessages : List Json → Option (List Message)
  | [] => some []
  | j :: js => do
      let m ← Message.ofJson j
      let rest ← decodeMessages js
      pure (m :: rest)

/-- `JSON.stringify` of `session.params`. -/
def Params.toJson (p : Params) : Json :=
  .obj [("provider", .str p.provider), ("model", .str p.model),
        ("temperature", .num p.temperature), ("systemPrompt", .str p.systemPrompt),
        ("memorySize", .num (p.memorySize : ℚ)), ("maxTokens", .num (p.maxTokens : ℚ)),
        ("ttsEnabled", .jbool p.ttsEnabled), ("voiceId", .str p.voiceId)]

/-- `JSON.parse` of `session.params`. -/
def Params.ofJson (j : Json) : Option Params := do
  let provider ← (← j.getField "provider").asStr
  let model ← (← j.getField "model").asStr
  let temperature ← (← j.getField "temperature").asRat
  let systemPrompt ← (← j.getField "systemPrompt").asStr
  let memorySize ← (← j.getField "memorySize").asInt
  let maxTokens ← (← j.getField "maxTokens").asInt
  let ttsEnabled ← (← j.getField "ttsEnabled").asBool
  let voiceId ← (← j.getField "voiceId").asStr
  pure ⟨provider, model, temperature, systemPrompt, memorySize, maxTokens, ttsEnabled, voiceId⟩

/-- `JSON.stringify(session)`, as written to `session:{id}` by `saveSession`. -/
def Session.toJson (s : Session) : Json :=
  .obj [("id", .str s.id), ("platform", .str s.platform), ("state", .str s.state),
        ("history", .arr (s.history.map Message.toJson)), ("params", s.params.toJson),
        ("createdAt", .num (s.createdAt : ℚ)), ("lastActivity", .num (s.lastActivity : ℚ))]

/-- `JSON.parse(data)` of a stored session record. -/
def Session.ofJson (j : Json) : Option Session := do
  let id ← (← j.getField "id").asStr
  let platform ← (← j.getField "platform").asStr
  let state ← (← j.getField "state").asStr
  let historyJson ← match j.getField "history" with
    | some (.arr xs) => some xs
    | _ => none
  let history ← decodeMessages historyJson
  let params ← Params.ofJson (← j.getField "params")
  let createdAt ← (← j.getField "createdAt").asInt
  let lastActivity ← (← j.getField "lastActivity").asInt
  pure ⟨id, platform, state, history, params, createdAt, lastActivity⟩

/-- `saveSession(session)` from `server.js` at wall-clock time `now`:
stamp `lastActivity`, update the in-memory map (the returned session)
and produce the serialized durable record written through to Redis. -/
def saveSessionPayload (now : Int) (session : Session) : Session × Json :=
  let s := { session with lastActivity := now }
  (s, s.toJson)

/-- The Redis-hit branch of `loadSession` from `server.js` at wall-clock
time `now`: parse the durable record and stamp `lastActivity` with the
load time. -/
def loadSessionFromBacking (now : Int) (data : Json) : Option Session :=
  (Session.ofJson data).map (fun s => { s with lastActivity := now })

/-! ### Concrete fixtures used by the concrete evaluations -/

/-- A concrete configuration: OpenRouter credential set, no Mistral
credential, no Redis. -/
def testEnv : Env :=
  { openrouter := ⟨some "k1", "openai/gpt-3.5-turbo"⟩
    mistral := ⟨none, "mistral-small-latest"⟩
    elevenLabsVoiceId := ""
    redisAvailable := false }

/-- A provider oracle whose every call succeeds with `"ok"`. -/
def okOracle : LLMRequest → Except String String := fun _ => .ok "ok"

/-- A provider oracle whose every call fails with `"boom"`. -/
def errOracle : LLMRequest → Except String String := fun _ => .error "boom"

/-- A fresh web session, exactly as `loadSession` creates it on a miss. -/
def freshWeb : Session := createSession testEnv "web_a" "webui" 0

/-- `freshWeb` after the state machine has entered the terminal state. -/
def terminalSession : Session := { freshWeb with state := "terminal_unhappy" }

/-- An active web session with `memorySize = 1` and a two-entry history
(exactly at the `2 × memorySize` cap). -/
def smallActive : Session :=
  { freshWeb with
    state := "webui"
    history := [⟨"user", "a"⟩, ⟨"assistant", "b"⟩]
    params := { freshWeb.params with memorySize := 1 } }

/-- An active web session with `memorySize = 1` and a three-entry
history (above the `2 × memorySize` cap). -/
def overfullActive : Session :=
  { freshWeb with
    state := "webui"
    history := [⟨"user", "a"⟩, ⟨"assistant", "b"⟩, ⟨"user", "c"⟩]
    params := { freshWeb.params with memorySize := 1 } }

/-- A 10001-character input starting with the affirmative token `yes`. -/
def longYes : String := String.mk ('y' :: 'e' :: 's' :: List.replicate 9998 'a')

/-- The spec's "Active" state, which the source represents by setting
`state` to the session's platform name. -/
def isActiveState (s : Session) : Prop := s.state = "telegram" ∨ s.state = "webui"

/-! ### C1 -/

/-- C1 fails on the code: the consent classifier is a case-insensitive
substring match, and `"I disagree"` contains the affirmative token
`"agree"`, so a fresh Consent session that replies `"I disagree"` is
classified as affirmative — the session moves to the platform (Active)
state, a confirmation (not a termination notice) is returned, the
session is saved, and no grace-delay deletion is scheduled. -/
theorem consent_disagree_goes_active :
    (handleInput testEnv errOracle 5 freshWeb "I disagree").1 =
      "Thank you! You can now start chatting. Type /help for available commands." ∧
    (handleInput testEnv errOracle 5 freshWeb "I disagree").2.1.state = "webui" ∧
    (handleInput testEnv errOracle 5 freshWeb "I disagree").2.1.state ≠ "terminal_unhappy" ∧
    (handleInput testEnv errOracle 5 freshWeb "I disagree").2.2 =
      [Effect.save { freshWeb with state := "webui", lastActivity := 5 }] := by
  refine ⟨rfl, rfl, by decide, rfl⟩

/-- C1 amended: because `"I disagree"` contains `"agree"` as a
substring, any fresh Consent session receiving it is classified as
affirmative: the state becomes the session's platform (the Active
state), the session is persisted, a confirmation is returned, and no
deletion is scheduled. -/
theorem consent_disagree_classified_affirmative (env : Env)
    (oracle : LLMRequest → Except String String) (now now0 : Int) (sid pf : String) :
    handleInput env oracle now (createSession env sid pf now0) "I disagree" =
      ("Thank you! You can now start chatting. Type /help for available commands.",
       { createSession env sid pf now0 with state := pf, lastActivity := now },
       [Effect.save { createSession env sid pf now0 with state := pf, lastActivity := now }]) :=
  rfl

/-! ### C4 -/

/-- Any character list starting with `y`, `e`, `s` matches the
`yes` pattern at its head. -/
theorem headMatches_yes (rest : List Char) :
    headMatches ['y', 'e', 's'] ('y' :: 'e' :: 's' :: rest) = true := by
  simp [headMatches]

/-- `yes` occurs in any character list starting with it. -/
theorem containsSub_yes (rest : List Char) :
    containsSub ['y', 'e', 's'] ('y' :: 'e' :: 's' :: rest) = true := by
  have h : containsSub ['y', 'e', 's'] ('y' :: 'e' :: 's' :: rest) =
      (headMatches ['y', 'e', 's'] ('y' :: 'e' :: 's' :: rest) ||
        containsSub ['y', 'e', 's'] ('e' :: 's' :: rest)) := rfl
  rw [h, headMatches_yes, Bool.true_or]

/-- `longYes` has 10001 characters. -/
theorem longYes_length : longYes.length = 10001 := by
  show ('y' :: 'e' :: 's' :: List.replicate 9998 'a').length = 10001
  rw [List.length_cons, List.length_cons, List.length_cons, List.length_replicate]

/-- The router's length validator rejects any 10001-character input. -/
theorem validateString_too_long (input : String) (hlen : input.length = 10001) :
    validateString true (some 1) (some MAX_MESSAGE_LENGTH) input =
      ⟨false, "Input must be at most 10000 characters"⟩ := by
  have hne : ¬(input = "") := by
    intro h
    rw [h] at hlen
    exact absurd hlen (by decide)
  simp [validateString, MAX_MESSAGE_LENGTH, hne, hlen]
  rfl

/-- C4 fails on the code as universally stated: length validation runs
before the consent classifier, so a 10001-character input containing
the affirmative token `"yes"` is answered with a validation error and
the session stays in the Consent state, unmutated and unpersisted. -/
theorem overlong_affirmative_rejected :
    jsIncludes (jsToLower longYes) "yes" = true ∧
    handleInput testEnv errOracle 7 freshWeb longYes =
      ("Input must be at most 10000 characters", freshWeb, []) ∧
    freshWeb.state = "consent" := by
  refine ⟨?_, ?_, rfl⟩
  · have h : jsIncludes (jsToLower longYes) "yes" =
        containsSub ['y', 'e', 's']
          ('y' :: 'e' :: 's' :: List.map Char.toLower (List.replicate 9998 'a')) := rfl
    rw [h, containsSub_yes]
  · unfold handleInput
    rw [validateString_too_long longYes longYes_length]
    rfl

/-- C4 amended: for every Consent-state session, an input that passes
the length validation (1–10000 characters) and contains an affirmative
token transitions the session to the Active state named by its
platform, persists it, and returns the confirmation message. -/
theorem consent_affirmative_activates (env : Env)
    (oracle : LLMRequest → Except String String) (now : Int) (s : Session) (input : String)
    (hstate : s.state = "consent")
    (hval : (validateString true (some 1) (some MAX_MESSAGE_LENGTH) input).valid = true)
    (haff : (jsIncludes (jsToLower input) "yes" || jsIncludes (jsToLower input) "agree" ||
             jsIncludes (jsToLower input) "accept") = true)
    (hplat : s.platform = "telegram" ∨ s.platform = "webui") :
    handleInput env oracle now s input =
      ("Thank you! You can now start chatting. Type /help for available commands.",
       { s with state := s.platform, lastActivity := now },
       [Effect.save { s with state := s.platform, lastActivity := now }]) ∧
    isActiveState (handleInput env oracle now s input).2.1 := by
  have hmain : handleInput env oracle now s input =
      ("Thank you! You can now start chatting. Type /help for available commands.",
       { s with state := s.platform, lastActivity := now },
       [Effect.save { s with state := s.platform, lastActivity := now }]) := by
    unfold handleInput
    rw [if_neg (by simp [hval]), if_pos hstate, if_pos (by exact haff)]
  refine ⟨hmain, ?_⟩
  rw [hmain]
  rcases hplat with h | h
  · exact Or.inl h
  · exact Or.inr h

/-- C4 amended, concrete instance: a fresh web session replying
`"yes"` becomes Active and gets the confirmation. -/
theorem consent_affirmative_activates_witness :
    (handleInput testEnv errOracle 3 freshWeb "yes").2.1.state = "webui" ∧
    (handleInput testEnv errOracle 3 freshWeb "yes").1 =
      "Thank you! You can now start chatting. Type /help for available commands." := by
  have h := consent_affirmative_activates testEnv errOracle 3 freshWeb "yes"
    rfl rfl rfl (Or.inr rfl)
  exact ⟨by rw [h.1]; rfl, by rw [h.1]⟩

/-! ### C8 -/

/-- C8 fails on the code as universally stated: for the empty input the
length validator answers first, so a TerminalRejected session gets
`"Input is required"` rather than the fixed termination message (the
state still does not change). -/
theorem terminal_empty_input_message :
    (handleInput testEnv errOracle 3 terminalSession "").1 = "Input is required" ∧
    (handleInput testEnv errOracle 3 terminalSession "").1 ≠
      "Session terminated. Please start a new conversation." := by
  exact ⟨rfl, by decide⟩

/-- C8 amended: a TerminalRejected (`terminal_unhappy`) session is
absorbing — for every input the session is returned unchanged (so no
input ever produces the Active or Consent state) with no effects, and
every input that passes length validation gets the fixed
"session terminated" message. -/
theorem terminal_state_absorbing (env : Env)
    (oracle : LLMRequest → Except String String) (now : Int) (s : Session) (input : String)
    (hstate : s.state = "terminal_unhappy") :
    (handleInput env oracle now s input).2.1 = s ∧
    (handleInput env oracle now s input).2.2 = [] ∧
    (handleInput env oracle now s input).2.1.state = "terminal_unhappy" ∧
    ((validateString true (some 1) (some MAX_MESSAGE_LENGTH) input).valid = true →
      (handleInput env oracle now s input).1 =
        "Session terminated. Please start a new conversation.") := by
  unfold handleInput
  by_cases hv : (validateString true (some 1) (some MAX_MESSAGE_LENGTH) input).valid = false
  · rw [if_pos hv]
    exact ⟨rfl, rfl, hstate, fun hval => absurd hval (by simp [hv])⟩
  · rw [if_neg hv, if_neg (by simp [hstate]), if_pos hstate]
    exact ⟨rfl, rfl, hstate, fun _ => rfl⟩

/-- C8 amended, concrete instance: a terminal session replying
`"hello"` is unchanged and gets the fixed termination message. -/
theorem terminal_state_absorbing_witness :
    (handleInput testEnv errOracle 3 terminalSession "hello").2.1 = terminalSession ∧
    (handleInput testEnv errOracle 3 terminalSession "hello").1 =
      "Session terminated. Please start a new conversation." := by
  have h := terminal_state_absorbing testEnv errOracle 3 terminalSession "hello" rfl
  exact ⟨h.1, h.2.2.2 rfl⟩

/-! ### C10 -/

/-- C10: in the Consent state a `/`-led input is never dispatched to
the command handler — it is classified by the consent matcher like any
other input, and since `"/help"` contains no affirmative token it
yields the termination notice, the `terminal_unhappy` state, a save and
a scheduled deletion instead of the help text; in general every
valid-length `/`-led input gets one of the two consent answers. -/
theorem consent_never_dispatches_commands (env : Env)
    (oracle : LLMRequest → Except String String) (now : Int) (s : Session)
    (hstate : s.state = "consent") :
    handleInput env oracle now s "/help" =
      ("Consent denied. Session will be terminated.",
       { s with state := "terminal_unhappy", lastActivity := now },
       [Effect.save { s with state := "terminal_unhappy", lastActivity := now },
        Effect.scheduleDelete s.id]) ∧
    (∀ input : String, jsStartsWith input "/" = true →
      (validateString true (some 1) (some MAX_MESSAGE_LENGTH) input).valid = true →
      (handleInput env oracle now s input).1 =
        "Thank you! You can now start chatting. Type /help for available commands." ∨
      (handleInput env oracle now s input).1 = "Consent denied. Session will be terminated.") := by
  constructor
  · unfold handleInput
    rw [if_neg (by decide), if_pos hstate, if_neg (by decide)]
  · intro input _ hval
    unfold handleInput
    rw [if_neg (by simp [hval]), if_pos hstate]
    by_cases haff : (jsIncludes (jsToLower input) "yes" || jsIncludes (jsToLower input) "agree" ||
        jsIncludes (jsToLower input) "accept") = true
    · rw [if_pos haff]; exact Or.inl rfl
    · rw [if_neg haff]; exact Or.inr rfl

/-- C10, concrete instance: a fresh Consent session sending `"/help"`
is terminated rather than shown the help text. -/
theorem consent_never_dispatches_commands_witness :
    (handleInput testEnv errOracle 4 freshWeb "/help").1 =
      "Consent denied. Session will be terminated." ∧
    (handleInput testEnv errOracle 4 freshWeb "/help").1 ≠ helpText ∧
    (handleInput testEnv errOracle 4 freshWeb "/help").2.1.state = "terminal_unhappy" := by
  have h := consent_never_dispatches_commands testEnv errOracle 4 freshWeb rfl
  exact ⟨by rw [h.1], by rw [h.1]; decide, by rw [h.1]⟩

/-! ### The provider path of `handleInput`, shared by C2 and C5 -/

/-- On an active-state session, a valid-length non-command input
reaches the trim-then-call-provider sequence of `handleInput`. -/
theorem handleInput_message_path (env : Env)
    (oracle : LLMRequest → Except String String) (now : Int) (s : Session) (input : String)
    (h1 : s.state ≠ "consent") (h2 : s.state ≠ "terminal_unhappy")
    (h3 : jsStartsWith input "/" = false)
    (h4 : (validateString true (some 1) (some MAX_MESSAGE_LENGTH) input).valid = true) :
    handleInput env oracle now s input =
      match callLLM env oracle (trimHistory s) input with
      | (.ok response, _) =>
        (response,
         { trimHistory s with
           history := (trimHistory s).history ++ [⟨"user", input⟩, ⟨"assistant", response⟩]
           lastActivity := now },
         [Effect.save { trimHistory s with
           history := (trimHistory s).history ++ [⟨"user", input⟩, ⟨"assistant", response⟩]
           lastActivity := now }])
      | (.error err, _) =>
        ("Error: " ++ err ++ ". Please try again or contact support.", trimHistory s, []) := by
  unfold handleInput
  rw [if_neg (by simp [h4]), if_neg h1, if_neg h2, if_neg (by simp [h3])]

/-- `handleInput` on the provider path when the (possibly fallen-back)
provider call succeeds: both turns are appended and the session saved. -/
theorem handleInput_message_ok (env : Env)
    (oracle : LLMRequest → Except String String) (now : Int) (s : Session)
    (input response : String)
    (h1 : s.state ≠ "consent") (h2 : s.state ≠ "terminal_unhappy")
    (h3 : jsStartsWith input "/" = false)
    (h4 : (validateString true (some 1) (some MAX_MESSAGE_LENGTH) input).valid = true)
    (hok : (callLLM env oracle (trimHistory s) input).1 = Except.ok response) :
    handleInput env oracle now s input =
      (response,
       { trimHistory s with
         history := (trimHistory s).history ++ [⟨"user", input⟩, ⟨"assistant", response⟩]
         lastActivity := now },
       [Effect.save { trimHistory s with
         history := (trimHistory s).history ++ [⟨"user", input⟩, ⟨"assistant", response⟩]
         lastActivity := now }]) := by
  have hpath := handleInput_message_path env oracle now s input h1 h2 h3 h4
  rcases hc : callLLM env oracle (trimHistory s) input with ⟨res, tr⟩
  rw [hc] at hpath
  rw [hc] at hok
  have hres : res = Except.ok response := hok
  subst hres
  exact hpath

/-- `handleInput` on the provider path when the provider call fails:
the user-facing error string is returned, nothing is appended and
nothing is saved (but the pre-call trim persists). -/
theorem handleInput_message_error (env : Env)
    (oracle : LLMRequest → Except String String) (now : Int) (s : Session)
    (input e : String)
    (h1 : s.state ≠ "consent") (h2 : s.state ≠ "terminal_unhappy")
    (h3 : jsStartsWith input "/" = false)
    (h4 : (validateString true (some 1) (some MAX_MESSAGE_LENGTH) input).valid = true)
    (herr : (callLLM env oracle (trimHistory s) input).1 = Except.error e) :
    handleInput env oracle now s input =
      ("Error: " ++ e ++ ". Please try again or contact support.", trimHistory s, []) := by
  have hpath := handleInput_message_path env oracle now s input h1 h2 h3 h4
  rcases hc : callLLM env oracle (trimHistory s) input with ⟨res, tr⟩
  rw [hc] at hpath
  rw [hc] at herr
  have hres : res = Except.error e := herr
  subst hres
  exact hpath

/-- The trimmed history is a suffix of the original (oldest entries
drop first). -/
theorem trimHistory_suffix (s : Session) : (trimHistory s).history <:+ s.history := by
  unfold trimHistory
  split
  · show jsSlice s.history (-(s.params.memorySize * 2)) <:+ s.history
    unfold jsSlice
    split
    · exact List.drop_suffix _ _
    · exact List.drop_suffix _ _
  · exact List.suffix_refl _

/-- After trimming, the history is within the `2 × memorySize` cap. -/
theorem trimHistory_length (s : Session) (hm : 1 ≤ s.params.memorySize) :
    ((trimHistory s).history.length : Int) ≤ 2 * s.params.memorySize := by
  unfold trimHistory
  split
  · next h =>
      show ((jsSlice s.history (-(s.params.memorySize * 2))).length : Int) ≤
        2 * s.params.memorySize
      unfold jsSlice
      rw [if_pos (by omega)]
      rw [List.length_drop]
      omega
  · next h =>
      omega

/-! ### C2 -/

/-- C2 fails on the code: trimming happens before the provider call and
two turns are appended after it, so a successful exchange can leave the
history above the `2 × memorySize` cap — here a session with
`memorySize = 1` and two entries ends the operation with four. -/
theorem history_cap_exceeded_after_append :
    (handleInput testEnv okOracle 9 smallActive "hello").2.1.history.length = 4 ∧
    ¬(((handleInput testEnv okOracle 9 smallActive "hello").2.1.history.length : Int) ≤
       2 * smallActive.params.memorySize) := by
  have hok : (callLLM testEnv okOracle (trimHistory smallActive) "hello").1 =
      Except.ok "ok" := rfl
  have h := handleInput_message_ok testEnv okOracle 9 smallActive "hello" "ok"
    (by decide) (by decide) (by decide) (by decide) hok
  rw [h]
  exact ⟨rfl, by decide⟩

/-- C2 amended: after a message-handling operation the history holds at
most `2 × memorySize + 2` entries (the cap is enforced by the trim that
runs before the provider call, and at most one user/assistant pair is
appended after it); the resulting history is a suffix of the previous
history possibly extended by that pair, so the oldest entries drop
first; and `/reset` leaves an empty history. -/
theorem history_bounded_after_message (env : Env)
    (oracle : LLMRequest → Except String String) (now : Int) (s : Session) (input : String)
    (hm : 1 ≤ s.params.memorySize)
    (h1 : s.state ≠ "consent") (h2 : s.state ≠ "terminal_unhappy")
    (h3 : jsStartsWith input "/" = false)
    (h4 : (validateString true (some 1) (some MAX_MESSAGE_LENGTH) input).valid = true) :
    (((handleInput env oracle now s input).2.1.history.length : Int) ≤
      2 * s.params.memorySize + 2) ∧
    ((handleInput env oracle now s input).2.1.history <:+ s.history ∨
     ∃ r, (handleInput env oracle now s input).2.1.history <:+
       s.history ++ [⟨"user", input⟩, ⟨"assistant", r⟩]) ∧
    (handleCommand env now s "/reset").2.1.history = [] := by
  have hlen := trimHistory_length s hm
  obtain ⟨p, hp⟩ := trimHistory_suffix s
  rcases hc : callLLM env oracle (trimHistory s) input with ⟨res, tr⟩
  cases res with
  | ok response =>
      have h := handleInput_message_ok env oracle now s input response h1 h2 h3 h4
        (by rw [hc])
      rw [h]
      refine ⟨?_, ?_, rfl⟩
      · show (((trimHistory s).history ++
            [Message.mk "user" input, Message.mk "assistant" response]).length : Int) ≤
          2 * s.params.memorySize + 2
        rw [List.length_append]
        simp only [List.length_cons, List.length_nil]
        push_cast
        omega
      · refine Or.inr ⟨response, ?_⟩
        show (trimHistory s).history ++ [Message.mk "user" input, Message.mk "assistant" response] <:+
          s.history ++ [Message.mk "user" input, Message.mk "assistant" response]
        exact ⟨p, by rw [← List.append_assoc, hp]⟩
  | error e =>
      have h := handleInput_message_error env oracle now s input e h1 h2 h3 h4
        (by rw [hc])
      rw [h]
      refine ⟨?_, Or.inl ⟨p, hp⟩, rfl⟩
      show ((trimHistory s).history.length : Int) ≤ 2 * s.params.memorySize + 2
      omega

/-- C2 amended, concrete instance at `memorySize = 1` with a two-entry
history and a successful provider call. -/
theorem history_bounded_after_message_witness :
    (((handleInput testEnv okOracle 9 smallActive "hello").2.1.history.length : Int) ≤
      2 * smallActive.params.memorySize + 2) ∧
    (handleCommand testEnv 9 smallActive "/reset").2.1.history = [] := by
  have h := history_bounded_after_message testEnv okOracle 9 smallActive "hello"
    (by decide) (by decide) (by decide) (by decide) (by decide)
  exact ⟨h.1, h.2.2⟩

/-! ### C5 -/

/-- C5 fails on the code: the history trim runs before the provider
call and is not rolled back, so when the history exceeded the cap
before the call, a provider failure leaves the session's history
trimmed — not equal to its pre-call value.  (The error string returned
carries the `ReferenceError` message raised inside `callLLM`'s catch
block, not the provider's own error.) -/
theorem provider_failure_still_trims :
    (handleInput testEnv errOracle 9 overfullActive "hi").1 =
      "Error: startTime is not defined. Please try again or contact support." ∧
    (handleInput testEnv errOracle 9 overfullActive "hi").2.1.history =
      [⟨"assistant", "b"⟩, ⟨"user", "c"⟩] ∧
    (handleInput testEnv errOracle 9 overfullActive "hi").2.1.history ≠
      overfullActive.history := by
  have herr : (callLLM testEnv errOracle (trimHistory overfullActive) "hi").1 =
      Except.error "startTime is not defined" := rfl
  have h := handleInput_message_error testEnv errOracle 9 overfullActive "hi"
    "startTime is not defined" (by decide) (by decide) (by decide) (by decide) herr
  rw [h]
  exact ⟨rfl, rfl, by decide⟩

/-- C5 amended: on a provider failure `handleInput` returns a
user-facing error string with no save effect and appends nothing; the
session keeps the history trimmed before the call, which equals the
pre-call history exactly when that history was within the
`2 × memorySize` cap. -/
theorem provider_failure_error_no_append (env : Env)
    (oracle : LLMRequest → Except String String) (now : Int) (s : Session)
    (input e : String)
    (h1 : s.state ≠ "consent") (h2 : s.state ≠ "terminal_unhappy")
    (h3 : jsStartsWith input "/" = false)
    (h4 : (validateString true (some 1) (some MAX_MESSAGE_LENGTH) input).valid = true)
    (h5 : (callLLM env oracle (trimHistory s) input).1 = Except.error e) :
    handleInput env oracle now s input =
      ("Error: " ++ e ++ ". Please try again or contact support.", trimHistory s, []) ∧
    (((s.history.length : Int) ≤ s.params.memorySize * 2) →
      (trimHistory s).history = s.history) := by
  refine ⟨handleInput_message_error env oracle now s input e h1 h2 h3 h4 h5, ?_⟩
  intro hle
  unfold trimHistory
  rw [if_neg (by omega)]

/-- C5 amended, concrete instance: an in-cap session whose provider
call fails gets the error string and an unchanged history. -/
theorem provider_failure_error_no_append_witness :
    (handleInput testEnv errOracle 3 smallActive "hi").1 =
      "Error: startTime is not defined. Please try again or contact support." ∧
    (handleInput testEnv errOracle 3 smallActive "hi").2.1.history =
      smallActive.history := by
  have herr : (callLLM testEnv errOracle (trimHistory smallActive) "hi").1 =
      Except.error "startTime is not defined" := rfl
  have h := provider_failure_error_no_append testEnv errOracle 3 smallActive "hi"
    "startTime is not defined" (by decide) (by decide) (by decide) (by decide) herr
  refine ⟨?_, ?_⟩
  · rw [h.1]
    rfl
  · rw [h.1]
    exact h.2 (by decide)

/-! ### C3 -/

/-- A configuration with both provider credentials set. -/
def bothEnv : Env :=
  { openrouter := ⟨some "k1", "openai/gpt-3.5-turbo"⟩
    mistral := ⟨some "k2", "mistral-small-latest"⟩
    elevenLabsVoiceId := ""
    redisAvailable := true }

/-- An oracle that fails differently on each provider. -/
def splitOracle : LLMRequest → Except String String :=
  fun r => if r.provider = "mistral" then .error "secondary boom" else .error "primary boom"

/-- An active session on the primary provider under `bothEnv`. -/
def activeBoth : Session := { createSession bothEnv "web_b" "webui" 0 with state := "webui" }

/-- C3 states the documented intent (an automatic one-hop Mistral
fallback whose own failure is the error surfaced), but the code's
error path has a slip that makes the fallback unreachable: the `catch`
block of `callLLM` begins by reading the `try`-scoped `const startTime`
(server.js:422), raising `ReferenceError: startTime is not defined`
before the fallback check at server.js:435.  Evaluating the embedding
at the claim's own scenario — both credentials configured, the primary
provider failing — shows that exactly one request is issued, to the
primary only (the secondary is never invoked), and the surfaced error
is the ReferenceError's message, neither the primary's nor the
secondary's provider error. -/
theorem fallback_dead_on_provider_failure :
    callLLM bothEnv splitOracle activeBoth "q" =
      (Except.error "startTime is not defined",
       [{ provider := "openrouter", model := "openai/gpt-3.5-turbo",
          messages := buildMessages activeBoth "q",
          temperature := 7 / 10, maxTokens := 1000 }]) ∧
    (∀ r ∈ (callLLM bothEnv splitOracle activeBoth "q").2, r.provider ≠ "mistral") ∧
    (callLLM bothEnv splitOracle activeBoth "q").1 ≠ Except.error "primary boom" ∧
    (callLLM bothEnv splitOracle activeBoth "q").1 ≠ Except.error "secondary boom" := by
  have h1 : (callLLM bothEnv splitOracle activeBoth "q").1 =
      Except.error "startTime is not defined" := rfl
  refine ⟨rfl, by decide, ?_, ?_⟩
  · rw [h1]
    simp
  · rw [h1]
    simp

/-! ### C6 -/

/-- C6: for a limiter with `max = 100`, `windowMs = 60000` and a key
holding 100 recorded timestamps: if all 100 fall within the trailing
window the next call is rejected and records nothing (the stored list
is unchanged); once the window has elapsed past all of them the call is
admitted again (and records only the new timestamp); and after
`reset(key)` the next call is admitted immediately. -/
theorem rate_limiter_window (rl : RateLimiter) (now now2 : Int) (key : String)
    (l : List Int)
    (hmax : rl.maxRequests = 100) (hwin : rl.windowMs = 60000)
    (hl : rl.requests key = some l) (hlen : l.length = 100) :
    ((∀ t ∈ l, now - t < 60000) →
      (rl.isAllowed now key).1 = false ∧
      (rl.isAllowed now key).2.requests key = some l) ∧
    ((∀ t ∈ l, 60000 ≤ now2 - t) →
      (rl.isAllowed now2 key).1 = true ∧
      (rl.isAllowed now2 key).2.requests key = some [now2]) ∧
    ((rl.reset key).isAllowed now key).1 = true := by
  refine ⟨?_, ?_, ?_⟩
  · intro hall
    have hfilter : l.filter (fun t => now - t < rl.windowMs) = l := by
      rw [List.filter_eq_self]
      intro a ha
      simpa [hwin] using hall a ha
    unfold RateLimiter.isAllowed
    rw [hl]
    simp only [Option.getD_some]
    rw [hfilter, if_pos (by rw [hmax, hlen])]
    refine ⟨rfl, ?_⟩
    show (if key = key then some l else rl.requests key) = some l
    rw [if_pos rfl]
  · intro hall
    have hfilter : l.filter (fun t => now2 - t < rl.windowMs) = [] := by
      rw [List.filter_eq_nil_iff]
      intro a ha
      have := hall a ha
      simp [hwin]
      omega
    unfold RateLimiter.isAllowed
    rw [hl]
    simp only [Option.getD_some]
    rw [hfilter, if_neg (by simp [hmax])]
    refine ⟨rfl, ?_⟩
    show (if key = key then some ([] ++ [now2]) else rl.requests key) = some [now2]
    rw [if_pos rfl]
    rfl
  · unfold RateLimiter.reset RateLimiter.isAllowed
    simp [hmax]

/-- A limiter state with 100 admissions at time 0 recorded for one key. -/
def witnessRL : RateLimiter :=
  ⟨100, 60000, fun k => if k = "web_a" then some (List.replicate 100 0) else none⟩

/-- C6, concrete instance: the 101st in-window call is rejected, a call
after the window is admitted, and a call right after `reset` is
admitted. -/
theorem rate_limiter_window_witness :
    (witnessRL.isAllowed 1 "web_a").1 = false ∧
    (witnessRL.isAllowed 60000 "web_a").1 = true ∧
    ((witnessRL.reset "web_a").isAllowed 1 "web_a").1 = true := by
  have h := rate_limiter_window witnessRL 1 60000 "web_a" (List.replicate 100 0)
    rfl rfl rfl (by simp)
  refine ⟨(h.1 ?_).1, (h.2.1 ?_).1, h.2.2⟩
  · intro t ht
    rw [List.eq_of_mem_replicate ht]
    decide
  · intro t ht
    rw [List.eq_of_mem_replicate ht]
    decide

/-! ### C7 -/

/-- Some `saveSession` write appears in the effect list. -/
def savesSession (effs : List Effect) : Prop := ∃ x, Effect.save x ∈ effs

/-- C7: `/temperature 3.5` fails validation (3.5 is outside [0,2]) and
dispatch answers with the usage string, leaving the session unchanged
and performing no store write; and in general every command dispatch is
atomic — either the session is returned unchanged with no `saveSession`
effect, or the mutated session is exactly the one written by the single
`saveSession` effect. -/
theorem command_validation_atomicity (env : Env) (now : Int) (s : Session)
    (input : String) :
    handleCommand env now s "/temperature 3.5" = ("Usage: /temperature <0.0-2.0>", s, []) ∧
    (((handleCommand env now s input).2.1 = s ∧
      ¬savesSession (handleCommand env now s input).2.2) ∨
     (handleCommand env now s input).2.2 =
       [Effect.save (handleCommand env now s input).2.1]) := by
  constructor
  · have h0 : jsParseFloat "3.5" =
        some ((1 : ℚ) * (((3 : Nat) : ℚ) + ((5 : Nat) : ℚ) / (10 : ℚ) ^ (1 : Nat))) := rfl
    have hparse : jsParseFloat "3.5" = some ((7 : ℚ) / 2) := by
      rw [h0]
      norm_num
    have hvn : (validateNumber (some 0) (some 2) (jsParseFloat "3.5")).valid = false := by
      rw [hparse]
      unfold validateNumber
      dsimp only
      rw [if_neg (by norm_num), if_pos (by norm_num)]
    have hcmd : handleCommand env now s "/temperature 3.5" =
        (if (validateNumber (some 0) (some 2) (jsParseFloat "3.5")).valid = true then
          ("Temperature set to 3.5",
           { s with params := { s.params with temperature := (jsParseFloat "3.5").getD 0 }, lastActivity := now },
           [Effect.save { s with params := { s.params with temperature := (jsParseFloat "3.5").getD 0 }, lastActivity := now }])
        else ("Usage: /temperature <0.0-2.0>", s, [])) := rfl
    rw [hcmd, if_neg (by simp [hvn])]
  · rcases hr : handleCommand env now s input with ⟨out, s2, effs⟩
    unfold handleCommand at hr
    dsimp only at hr
    repeat' split at hr
    all_goals try simp only [saveAndReturn] at hr
    all_goals injection hr with h1 hr2
    all_goals injection hr2 with h2 h3
    all_goals subst h2
    all_goals subst h3
    all_goals first
      | (right; rfl)
      | (left; exact ⟨rfl, by simp [savesSession]⟩)

/-! ### C9 -/

/-- A history entry round-trips through its JSON form. -/
theorem message_roundtrip (m : Message) : Message.ofJson m.toJson = some m := rfl

/-- A serialized history round-trips entrywise. -/
theorem history_roundtrip (l : List Message) :
    decodeMessages (l.map Message.toJson) = some l := by
  induction l with
  | nil => rfl
  | cons a t ih => simp [decodeMessages, message_roundtrip, ih]

/-- C9: saving a session (which stamps `lastActivity` with the save
time and serializes) and reconstructing it from the durable record
yields a session equal to the original in every field — id, platform,
state, history, params, createdAt — except `lastActivity`, which is
stamped with the load time. -/
theorem session_roundtrip (s : Session) (now1 now2 : Int) :
    loadSessionFromBacking now2 (saveSessionPayload now1 s).2 =
      some { s with lastActivity := now2 } := by
  have key : Session.ofJson (saveSessionPayload now1 s).2 =
      (decodeMessages (List.map Message.toJson s.history)).bind
        (fun history => some { s with history := history, lastActivity := now1 }) := rfl
  unfold loadSessionFromBacking
  rw [key, history_roundtrip]
  rfl

end Goon
